import Mathlib

/-!
Shallow embedding of the registry layer of the effect-rpc repository.

The embedding covers, faithfully to the TypeScript source:

* `packages/effect-rpc/src/registry.ts`: the scoped builder registry
  (`createRpcGroupRegistry` / `registerGroup` / `registerGetGroup` / `get` /
  `has` / `getTags`), the tagged accessors (`createTaggedRPCGroup`,
  `TaggedHandler`), and `registerHandler`.
* the legacy registry module (shipped unnamed in this snapshot): the
  module-level maps `__globalGroupMapping` and `__globalRequestMapping`,
  `createHandler`, `getHandler`, the legacy scoped `register` that also
  writes the global map, `createRequests` and `makeRequest`.
* `packages/effect-rpc/src/helpers.ts`: `makeRPCRequest`.

Conventions of the embedding:

* A JavaScript object used as a string-keyed dictionary, and a JavaScript
  `Map`, are both modelled as association lists `List (String × V)`.
  `tag in obj` is key membership, `{...obj, [tag]: v}` under the guard
  `¬(tag in obj)` appends the new binding, and `Map.set` replaces in place
  or appends (`mapSet`).
* Module-level mutable state (`__globalGroupMapping`,
  `__globalRequestMapping`) is threaded explicitly: a function that can
  observe or mutate it takes the map as an extra argument and returns the
  (possibly updated) map.  A function whose body never touches the module
  state returns that argument unchanged.
* A TypeScript function that can `throw` is translated to `Except`;
  distinct thrown error messages become distinct constructors.
* An `Effect` value (a deferred computation) is translated to a plain data
  value holding exactly what the closure captures; a separate `run`
  function gives the computation's semantics once the external framework
  has supplied the constructed client (modelled as an association list of
  request names to callables).
-/

namespace EffectRpc

/-- Lookup of a key in an association list, mirroring JavaScript property
access `obj[key]` / `Map.get(key)` (first binding wins). -/
def lookupKey {V : Type} : List (String × V) → String → Option V
  | [], _ => none
  | (k, v) :: rest, t => if k = t then some v else lookupKey rest t

/-- Key membership, mirroring the JavaScript `key in obj` / `Map.has(key)`
tests. -/
def hasKey {V : Type} (m : List (String × V)) (t : String) : Bool :=
  (lookupKey m t).isSome

/-- Insert-or-replace, mirroring `Map.set(key, value)`: an existing key keeps
its position and gets the new value, a fresh key is appended. -/
def mapSet {V : Type} : List (String × V) → String → V → List (String × V)
  | [], t, v => [(t, v)]
  | (k, w) :: rest, t, v =>
    if k = t then (k, v) :: rest else (k, w) :: mapSet rest t v

/-- Faults thrown by the registry layer.  `duplicateTag t` is the thrown
`RPC group with tag "t" already exists`; `tagNotFound t` is the thrown
`RPC group with tag "t" not found`. -/
inductive RegistryError where
  | duplicateTag (tag : String)
  | tagNotFound (tag : String)
  deriving DecidableEq, Repr

/-- Embedding of the scoped builder registry of registry.ts: the closure
state `groups` of `createRegistryWithRpcGroups`.  The group type is an
opaque parameter `G`: the registry never inspects a group's internals. -/
structure RpcGroupRegistry (G : Type) where
  groups : List (String × G)
  deriving DecidableEq, Repr

/-- Embedding of `createRpcGroupRegistry()`: the empty builder registry. -/
def createRpcGroupRegistry (G : Type) : RpcGroupRegistry G := ⟨[]⟩

/-- Embedding of the `TaggedRPCGroup` accessor value built by
`createTaggedRPCGroup` in registry.ts: the captured tag and group. -/
structure TaggedRPCGroup (G : Type) where
  tag : String
  groups : G
  deriving DecidableEq, Repr

/-- Embedding of `createTaggedRPCGroup(tag, groups)` (registry.ts): packs
the tag and the group into the accessor. -/
def createTaggedRPCGroup {G : Type} (t : String) (g : G) : TaggedRPCGroup G :=
  ⟨t, g⟩

/-- Embedding of the `has` method of the scoped registry: `tag in groups`. -/
def RpcGroupRegistry.has {G : Type} (r : RpcGroupRegistry G) (t : String) : Bool :=
  hasKey r.groups t

/-- Embedding of `registerGroup(tag, rpcGroup)` (registry.ts): throws on a
duplicate tag, otherwise builds a new registry value from the spread copy
`{...groups, [tag]: rpcGroup}` — the receiver is not mutated. -/
def RpcGroupRegistry.registerGroup {G : Type} (r : RpcGroupRegistry G) (t : String)
    (g : G) : Except RegistryError (RpcGroupRegistry G) :=
  if r.has t then .error (.duplicateTag t)
  else .ok ⟨r.groups ++ [(t, g)]⟩

/-- Embedding of the `get(tag)` method of the scoped registry: throws when
the tag is not a key of `groups`, or when the stored entry is absent, and
otherwise returns `createTaggedRPCGroup(tag, group)`. -/
def RpcGroupRegistry.get {G : Type} (r : RpcGroupRegistry G) (t : String) :
    Except RegistryError (TaggedRPCGroup G) :=
  if r.has t then
    match lookupKey r.groups t with
    | some g => .ok (createTaggedRPCGroup t g)
    | none => .error (.tagNotFound t)
  else .error (.tagNotFound t)

/-- Embedding of `registerGetGroup(tag, group)` (registry.ts): literally
`const a = registry.registerGroup(tag, group); return a.get(tag);`. -/
def RpcGroupRegistry.registerGetGroup {G : Type} (r : RpcGroupRegistry G) (t : String)
    (g : G) : Except RegistryError (TaggedRPCGroup G) :=
  (r.registerGroup t g).bind (fun r2 => r2.get t)

/-- Embedding of the `getTags()` method: `Object.keys(groups)`. -/
def RpcGroupRegistry.getTags {G : Type} (r : RpcGroupRegistry G) : List String :=
  r.groups.map Prod.fst

/-- Repeated registration: folds `registerGroup` over a list of
(tag, group) pairs, propagating the first thrown fault.  This is the
builder chain `createRpcGroupRegistry().registerGroup(...)....` used by the
call sites of registry.ts. -/
def registerAll {G : Type} : List (String × G) → RpcGroupRegistry G →
    Except RegistryError (RpcGroupRegistry G)
  | [], r => .ok r
  | (t, g) :: rest, r =>
    match r.registerGroup t g with
    | .error e => .error e
    | .ok r2 => registerAll rest r2

/-- State of the module-level `__globalGroupMapping` map of the legacy
registry module. -/
abbrev GlobalGroupMap (G : Type) := List (String × G)

/-- Embedding of the `TaggedHandler` accessor value built by
`registerHandler` in registry.ts: the captured tag and group. -/
structure TaggedHandler (G : Type) where
  tag : String
  handlers : G
  deriving DecidableEq, Repr

/-- Embedding of `registerHandler(tag, handler)` (registry.ts lines
90-113).  Its body only builds and returns the accessor object: it contains
no duplicate check and no access to any module-level map, so in the
state-threaded embedding the global map passes through unchanged and the
return type has no error case. -/
def registerHandler {G : Type} (t : String) (g : G) (s : GlobalGroupMap G) :
    GlobalGroupMap G × TaggedHandler G :=
  (s, ⟨t, g⟩)

/-- Embedding of the legacy `createHandler(tag, rpcGroup)`: checks
`__globalGroupMapping.has(tag)`, throws on a duplicate, otherwise
`__globalGroupMapping.set(tag, rpcGroup)` and returns the group. -/
def createHandler {G : Type} (t : String) (g : G) (s : GlobalGroupMap G) :
    Except RegistryError (GlobalGroupMap G × G) :=
  if hasKey s t then .error (.duplicateTag t)
  else .ok (mapSet s t g, g)

/-- Embedding of the legacy `getHandler(tag)`: reads
`__globalGroupMapping.get(tag)` and throws when the result is absent. -/
def getHandler {G : Type} (t : String) (s : GlobalGroupMap G) : Except RegistryError G :=
  match lookupKey s t with
  | none => .error (.tagNotFound t)
  | some g => .ok g

/-- Embedding of the legacy scoped `register` (the `createHandlerRegistry`
variant of the unnamed legacy module, lines 597-610): after the local
duplicate check it both extends the local `handlers` object and executes
`__globalGroupMapping.set(tag, handler)` ("Also register globally for
backward compatibility"). -/
def legacyRegister {G : Type} (r : RpcGroupRegistry G) (t : String) (g : G)
    (s : GlobalGroupMap G) :
    Except RegistryError (RpcGroupRegistry G × GlobalGroupMap G) :=
  if r.has t then .error (.duplicateTag t)
  else .ok (⟨r.groups ++ [(t, g)]⟩, mapSet s t g)

/-- State-threaded form of `registerGroup` of registry.ts: the source
function references no module-level state, so the global-map component is
returned unchanged. -/
def registerGroupRun {G : Type} (r : RpcGroupRegistry G) (t : String) (g : G)
    (s : GlobalGroupMap G) :
    Except RegistryError (RpcGroupRegistry G) × GlobalGroupMap G :=
  (r.registerGroup t g, s)

/-- Faults that can surface when a dispatched request is executed.
`requestNotFound n` is the thrown `Request "n" not found` of the explicit
defensive check; `notAFunction n` is the implicit JavaScript `TypeError`
raised by invoking `client[n]` when that property is `undefined`;
`failed e` is the request's own declared failure channel. -/
inductive DispatchError (E : Type) where
  | requestNotFound (name : String)
  | notAFunction (name : String)
  | failed (e : E)
  deriving DecidableEq, Repr

/-- Model of the client object produced by the external framework's
`RpcClient.make(group)`: one callable per request name. -/
abbrev RpcClientModel (F : Type) := List (String × F)

/-- Data of the deferred computation built by `TaggedHandler.getRequest`
(registry.ts lines 103-111): the closure captures the handler group and the
request name; nothing runs at construction. -/
structure GetRequestEffect (G : Type) where
  group : G
  name : String
  deriving DecidableEq, Repr

/-- Embedding of the construction step of `getRequest(name)` on a
`TaggedHandler`: the body is a single `return Effect.gen(...)` — no code
path throws before the deferred value is returned, so the construction is
total and the `Except` is always `ok`. -/
def TaggedHandler.getRequest {G E : Type} (h : TaggedHandler G) (n : String) :
    Except (DispatchError E) (GetRequestEffect G) :=
  .ok ⟨h.handlers, n⟩

/-- Semantics of running the deferred computation of
`TaggedHandler.getRequest` once the external framework has produced the
client for the captured group: `if (!(name in client)) throw` (the
defensive boundary check), else `return client[name]`. -/
def runGetRequest {G F E : Type} (d : GetRequestEffect G) (client : RpcClientModel F) :
    Except (DispatchError E) F :=
  match lookupKey client d.name with
  | none => .error (.requestNotFound d.name)
  | some f => .ok f

/-- Data of the deferred computation built by
`makeRPCRequest(rpcGroup, requestName)(payload)` (helpers.ts lines 30-49):
the closure captures the group, the request name and the payload; building
the `Effect.gen` program runs nothing. -/
structure RpcCallEffect (G P : Type) where
  group : G
  name : String
  payload : P
  deriving DecidableEq, Repr

/-- Embedding of `makeRPCRequest(rpcGroup, requestName)`: returns the
function from payloads to the deferred program. -/
def makeRPCRequest {G P : Type} (g : G) (n : String) : P → RpcCallEffect G P :=
  fun p => ⟨g, n, p⟩

/-- Embedding of the `getRequest(name, payload)` method of a
`TaggedRPCGroup` accessor (registry.ts lines 194-200): it calls
`makeRPCRequest(groups, name)` and applies it to the payload; both steps
only build closures, so construction is total. -/
def TaggedRPCGroup.getRequest {G P E : Type} (acc : TaggedRPCGroup G) (n : String)
    (p : P) : Except (DispatchError E) (RpcCallEffect G P) :=
  .ok (makeRPCRequest acc.groups n p)

/-- Semantics of running the deferred program of `makeRPCRequest` once the
client exists: `const req = client[requestName]; const res = yield*
req(payload)`.  There is no defensive presence check here: when the name is
absent, `req` is `undefined` and invoking it raises a JavaScript
`TypeError` (`notAFunction`), not the `Request "..." not found` fault.  On
success the result is logged and returned unchanged. -/
def runRpcCallEffect {G P E A : Type} (d : RpcCallEffect G P)
    (client : RpcClientModel (P → Except E A)) : Except (DispatchError E) A :=
  match lookupKey client d.name with
  | none => .error (.notAFunction d.name)
  | some f =>
    match f d.payload with
    | .error e => .error (.failed e)
    | .ok a => .ok a

/-- Faults thrown by the legacy global request mapping.  `requestExists t`
is the thrown `Request already exists in request mapping "t"`;
`noRequests t` is the thrown `No requests found for tag "t"`. -/
inductive RequestMapError where
  | requestExists (tag : String)
  | noRequests (tag : String)
  deriving DecidableEq, Repr

/-- State of the module-level `__globalRequestMapping` map of the legacy
module: tags to arrays of tagged requests. -/
abbrev GlobalRequestMap (R : Type) := List (String × List R)

/-- Embedding of the `for (const request of requests)` loop of
`createRequests`: at each iteration the duplicate check
`__globalRequestMapping.has(tag)` is re-evaluated, and on success the
request is appended to the tag's array via `Map.set`. -/
def createRequestsLoop {R : Type} (t : String) :
    List R → GlobalRequestMap R → GlobalRequestMap R × Except RequestMapError Unit
  | [], s => (s, .ok ())
  | r :: rest, s =>
    if hasKey s t then (s, .error (.requestExists t))
    else createRequestsLoop t rest (mapSet s t (((lookupKey s t).getD []) ++ [r]))

/-- Embedding of `createRequests(tag, requests)` (legacy module lines
1129-1141): runs the per-request loop and, when no iteration threw,
returns `__globalRequestMapping.get(tag)` (which is `undefined`, i.e.
`none`, when the input array was empty). -/
def createRequests {R : Type} (t : String) (l : List R) (s : GlobalRequestMap R) :
    GlobalRequestMap R × Except RequestMapError (Option (List R)) :=
  match createRequestsLoop t l s with
  | (s2, .ok _) => (s2, .ok (lookupKey s2 t))
  | (s2, .error e) => (s2, .error e)

/-- Embedding of `makeRequest(tag, requestName)` (legacy module lines
1199-1207): reads `__globalRequestMapping.get(tag)`, throws when the tag is
absent, and otherwise falls off the end of the function body — the request
name is never consulted and the resolved value is `undefined` (here
`Unit`). -/
def makeRequest {R : Type} (t : String) (n : String) (s : GlobalRequestMap R) :
    Except RequestMapError Unit :=
  match lookupKey s t with
  | none => .error (.noRequests t)
  | some _ => .ok ()

/-! Helper lemmas about the association-list model. -/

theorem hasKey_false_iff {V : Type} (l : List (String × V)) (t : String) :
    hasKey l t = false ↔ lookupKey l t = none := by
  unfold hasKey
  cases lookupKey l t <;> simp

theorem lookupKey_append_right {V : Type} {l1 : List (String × V)}
    (l2 : List (String × V)) {t : String} (h : lookupKey l1 t = none) :
    lookupKey (l1 ++ l2) t = lookupKey l2 t := by
  induction l1 with
  | nil => rfl
  | cons p rest ih =>
    obtain ⟨k, v⟩ := p
    by_cases hk : k = t
    · simp [lookupKey, hk] at h
    · simp only [lookupKey, hk, if_false] at h
      simpa [lookupKey, hk] using ih h

theorem hasKey_append_of_none {V : Type} {l1 : List (String × V)}
    (l2 : List (String × V)) {t : String} (h : lookupKey l1 t = none) :
    hasKey (l1 ++ l2) t = hasKey l2 t := by
  simp [hasKey, lookupKey_append_right l2 h]

theorem hasKey_mapSet_self {V : Type} (s : List (String × V)) (t : String) (v : V) :
    hasKey (mapSet s t v) t = true := by
  induction s with
  | nil => simp [mapSet, hasKey, lookupKey]
  | cons p rest ih =>
    obtain ⟨k, w⟩ := p
    by_cases hk : k = t
    · simp [mapSet, hk, hasKey, lookupKey]
    · simpa [mapSet, hk, hasKey, lookupKey] using ih

theorem registerGroup_ok_extension {G : Type} {r r2 : RpcGroupRegistry G} {t : String}
    {g : G} (h : r.registerGroup t g = .ok r2) :
    r.has t = false ∧ r2 = ⟨r.groups ++ [(t, g)]⟩ := by
  by_cases hht : r.has t
  · simp [RpcGroupRegistry.registerGroup, hht] at h
  · simp only [Bool.not_eq_true] at hht
    simp only [RpcGroupRegistry.registerGroup, hht, Bool.false_eq_true, if_false,
      Except.ok.injEq] at h
    exact ⟨hht, h.symm⟩

theorem has_extension_self {G : Type} {r : RpcGroupRegistry G} {t : String} (g : G)
    (h : r.has t = false) :
    (⟨r.groups ++ [(t, g)]⟩ : RpcGroupRegistry G).has t = true := by
  have hn : lookupKey r.groups t = none := (hasKey_false_iff _ _).mp h
  simp [RpcGroupRegistry.has, hasKey, lookupKey_append_right _ hn, lookupKey]

theorem registerAll_preserves_not_has {G : Type} (l : List (String × G))
    (r r2 : RpcGroupRegistry G) (u : String) (hu : u ∉ l.map Prod.fst)
    (hr : r.has u = false) (h : registerAll l r = .ok r2) : r2.has u = false := by
  induction l generalizing r with
  | nil =>
    simp only [registerAll, Except.ok.injEq] at h
    exact h ▸ hr
  | cons p rest ih =>
    obtain ⟨t, g⟩ := p
    simp only [registerAll] at h
    cases hre : r.registerGroup t g with
    | error e => rw [hre] at h; exact absurd h (by simp)
    | ok rr =>
      rw [hre] at h
      obtain ⟨hfresh, hrr⟩ := registerGroup_ok_extension hre
      have htu : t ≠ u := by
        intro he
        exact hu (by simp [he])
      have hru : rr.has u = false := by
        have hn : lookupKey r.groups u = none := (hasKey_false_iff _ _).mp hr
        subst hrr
        simp [RpcGroupRegistry.has, hasKey, lookupKey_append_right _ hn, lookupKey, htu]
      have humem : u ∉ rest.map Prod.fst := fun hm => hu (List.mem_cons_of_mem t hm)
      exact ih rr humem hru h

/-! Theorems settling the claims. -/

/-- Claim C1 (code bug witness): the second registration of an
already-registered tag through `registerHandler` does not raise the
duplicate-tag fault.  Registering the tag `"a"` twice succeeds both times:
the second call again returns an accessor (and the shared map, threaded
through, is still empty, so no registry ever saw the first registration).
The claim — that every registry variant raises the duplicate-tag fault on
the second attempt — is contradicted by the code. -/
theorem registerHandler_duplicate_second_attempt_succeeds :
    registerHandler "a" (2 : Nat) (registerHandler "a" (1 : Nat) ([] : GlobalGroupMap Nat)).1
      = (([] : GlobalGroupMap Nat), (⟨"a", 2⟩ : TaggedHandler Nat)) := rfl

/-- Claim C2 (code bug witness): `registerHandler` never stores its entry
into the process-wide shared map, so a subsequent `getHandler` for the very
tag just registered raises the unknown-tag fault instead of returning an
accessor, contradicting the claim (and the function's own documentation and
the repository's README/CHANGELOG examples). -/
theorem getHandler_after_registerHandler_fails :
    getHandler "a" (registerHandler "a" (1 : Nat) ([] : GlobalGroupMap Nat)).1
      = .error (.tagNotFound "a") := rfl

/-- Claim C3: registering a fresh tag into a scoped registry returns a new
registry value built from the spread copy of the old entries; the new value
contains the tag, while the prior registry value still answers `has t =
false` and its entry list is untouched (the result is `.ok` of the pure
extension of the unchanged `r.groups`). -/
theorem registerGroup_prior_value_unchanged {G : Type} (r : RpcGroupRegistry G)
    (t : String) (g : G) (h : r.has t = false) :
    r.registerGroup t g = .ok ⟨r.groups ++ [(t, g)]⟩ ∧
    (⟨r.groups ++ [(t, g)]⟩ : RpcGroupRegistry G).has t = true ∧
    r.has t = false := by
  refine ⟨?_, has_extension_self g h, h⟩
  simp [RpcGroupRegistry.registerGroup, h]

/-- Witness for claim C3 at a concrete registry. -/
theorem registerGroup_prior_value_unchanged_witness :
    RpcGroupRegistry.registerGroup ⟨[("x", (0 : Nat))]⟩ "y" 1
      = .ok ⟨[("x", 0)] ++ [("y", 1)]⟩ ∧
    (⟨[("x", (0 : Nat))] ++ [("y", 1)]⟩ : RpcGroupRegistry Nat).has "y" = true ∧
    (⟨[("x", (0 : Nat))]⟩ : RpcGroupRegistry Nat).has "y" = false :=
  registerGroup_prior_value_unchanged ⟨[("x", 0)]⟩ "y" 1 rfl

/-- Claim C4 (counterexample): registration into the legacy scoped builder
registry is not free of process-wide effects.  Registering the fresh tag
`"a"` into the empty legacy registry, starting from the empty module-level
group map, returns the map `[("a", 1)]`: the module-level shared map was
mutated by the registration, so the claim that no process-wide state is
read or mutated is false. -/
theorem legacyRegister_writes_global_map :
    legacyRegister (⟨[]⟩ : RpcGroupRegistry Nat) "a" 1 ([] : GlobalGroupMap Nat)
      = .ok (⟨[("a", 1)]⟩, [("a", 1)]) ∧
    ([("a", (1 : Nat))] : GlobalGroupMap Nat) ≠ ([] : GlobalGroupMap Nat) :=
  ⟨rfl, by decide⟩

/-- Claim C4 (amended): registration through `registerGroup` of the current
registry.ts leaves the module-level map untouched, while the legacy scoped
`register` of the unnamed legacy module additionally writes the new entry
into the module-level shared group map. -/
theorem registration_global_state_effects {G : Type} (r : RpcGroupRegistry G)
    (t : String) (g : G) (s : GlobalGroupMap G) :
    (registerGroupRun r t g s).2 = s ∧
    (r.has t = false →
      legacyRegister r t g s = .ok (⟨r.groups ++ [(t, g)]⟩, mapSet s t g)) := by
  refine ⟨rfl, fun h => ?_⟩
  simp [legacyRegister, h]

/-- Witness for claim C4's amended theorem at a concrete input. -/
theorem registration_global_state_effects_witness :
    (registerGroupRun (⟨[]⟩ : RpcGroupRegistry Nat) "a" 1 []).2
      = ([] : GlobalGroupMap Nat) ∧
    legacyRegister (⟨[]⟩ : RpcGroupRegistry Nat) "a" 1 []
      = .ok (⟨[] ++ [("a", 1)]⟩, mapSet [] "a" 1) :=
  ⟨(registration_global_state_effects ⟨[]⟩ "a" 1 []).1,
   (registration_global_state_effects ⟨[]⟩ "a" 1 []).2 rfl⟩

/-- Claim C5: looking up a tag absent from a scoped registry via `get`, or
absent from the module-level map via `getHandler`, raises the unknown-tag
fault — the result is the `tagNotFound` error, never a placeholder
value. -/
theorem absent_tag_lookup_raises {G H : Type} (r : RpcGroupRegistry G) (t : String)
    (s : GlobalGroupMap H) (u : String) (h1 : r.has t = false)
    (h2 : lookupKey s u = none) :
    r.get t = .error (.tagNotFound t) ∧ getHandler u s = .error (.tagNotFound u) := by
  constructor
  · simp [RpcGroupRegistry.get, h1]
  · simp [getHandler, h2]

/-- Witness for claim C5 at concrete non-empty stores. -/
theorem absent_tag_lookup_raises_witness :
    RpcGroupRegistry.get (⟨[("x", (0 : Nat))]⟩ : RpcGroupRegistry Nat) "a"
      = .error (.tagNotFound "a") ∧
    getHandler "a" ([("x", (0 : Nat))] : GlobalGroupMap Nat)
      = .error (.tagNotFound "a") :=
  absent_tag_lookup_raises ⟨[("x", 0)]⟩ "a" [("x", 0)] "a" rfl rfl

/-- Claim C6: `has` answers true on the registry value produced by a
successful `registerGroup` of the tag, and false on any registry value
built by a chain of registrations (from the empty registry) in which the
tag never occurs. -/
theorem has_iff_registered {G : Type} (r r2 : RpcGroupRegistry G) (t : String)
    (g : G) (l : List (String × G)) (r3 : RpcGroupRegistry G) (u : String)
    (h1 : r.registerGroup t g = .ok r2)
    (h2 : registerAll l (createRpcGroupRegistry G) = .ok r3)
    (h3 : u ∉ l.map Prod.fst) :
    r2.has t = true ∧ r3.has u = false := by
  obtain ⟨hfresh, hext⟩ := registerGroup_ok_extension h1
  refine ⟨hext ▸ has_extension_self g hfresh, ?_⟩
  exact registerAll_preserves_not_has l (createRpcGroupRegistry G) r3 u h3 rfl h2

/-- Witness for claim C6: a two-step builder chain. -/
theorem has_iff_registered_witness :
    (⟨[("a", (0 : Nat))]⟩ : RpcGroupRegistry Nat).has "a" = true ∧
    (⟨[("a", (0 : Nat)), ("b", 1)]⟩ : RpcGroupRegistry Nat).has "c" = false :=
  has_iff_registered ⟨[]⟩ ⟨[("a", 0)]⟩ "a" 0 [("a", 0), ("b", 1)]
    ⟨[("a", 0), ("b", 1)]⟩ "c" rfl rfl (by decide)

/-- Claim C7: for a fresh tag, `registerGetGroup` returns exactly the
tagged accessor `createTaggedRPCGroup t g` — its tag is the registered tag
and its group the registered group — and it is literally the composition
of `registerGroup` followed by `get` on the new registry value. -/
theorem registerGetGroup_is_register_then_get {G : Type} (r : RpcGroupRegistry G)
    (t : String) (g : G) (h : r.has t = false) :
    r.registerGetGroup t g = .ok (createTaggedRPCGroup t g) ∧
    r.registerGetGroup t g = (r.registerGroup t g).bind (fun r2 => r2.get t) := by
  refine ⟨?_, rfl⟩
  have hn : lookupKey r.groups t = none := (hasKey_false_iff _ _).mp h
  simp only [RpcGroupRegistry.registerGetGroup, RpcGroupRegistry.registerGroup, h,
    Bool.false_eq_true, if_false, Except.bind]
  simp [RpcGroupRegistry.get, RpcGroupRegistry.has, hasKey,
    lookupKey_append_right _ hn, lookupKey]

/-- Witness for claim C7 at a concrete registry. -/
theorem registerGetGroup_is_register_then_get_witness :
    RpcGroupRegistry.registerGetGroup (⟨[]⟩ : RpcGroupRegistry Nat) "a" 5
      = .ok (createTaggedRPCGroup "a" 5) ∧
    RpcGroupRegistry.registerGetGroup (⟨[]⟩ : RpcGroupRegistry Nat) "a" 5
      = (RpcGroupRegistry.registerGroup ⟨[]⟩ "a" 5).bind (fun r2 => r2.get "a") :=
  registerGetGroup_is_register_then_get ⟨[]⟩ "a" 5 rfl

/-- Claim C8 (counterexample): for the `TaggedRPCGroup` accessor the
dispatch path goes through `makeRPCRequest`, which performs no defensive
presence check.  Executing the deferred call for the name `"X"` against a
client exposing only `"Y"` fails with the implicit `notAFunction` fault of
invoking an `undefined` property — not with the `requestNotFound` fault of
the defensive boundary check, contradicting the claim that the
unknown-request-name fault is raised via a defensive check for every
tagged accessor. -/
theorem makeRPCRequest_missing_name_raises_typeerror :
    runRpcCallEffect (makeRPCRequest (0 : Nat) "X" (5 : Nat))
        ([("Y", fun p => .ok p)] : RpcClientModel (Nat → Except Unit Nat))
      = .error (.notAFunction "X") ∧
    (DispatchError.notAFunction "X" : DispatchError Unit)
      ≠ DispatchError.requestNotFound "X" :=
  ⟨rfl, by decide⟩

/-- Claim C8 (amended): constructing the deferred computation through
`getRequest` never fails, on either accessor — the construction step is
total and always returns the deferred value.  When the request name is
absent from the client built by the external framework, the failure
surfaces only when the deferred computation is run: for the
`TaggedHandler` accessor via the defensive boundary check as the
`requestNotFound` fault, and for the `TaggedRPCGroup` accessor (which has
no defensive check) as the implicit `notAFunction` invocation fault. -/
theorem getRequest_construction_total_failure_at_run {G E P A : Type}
    (th : TaggedHandler G) (acc : TaggedRPCGroup G) (n : String) (p : P)
    (c1 : RpcClientModel A) (c2 : RpcClientModel (P → Except E A))
    (h1 : lookupKey c1 n = none) (h2 : lookupKey c2 n = none) :
    th.getRequest n
      = (.ok ⟨th.handlers, n⟩ : Except (DispatchError E) (GetRequestEffect G)) ∧
    acc.getRequest n p
      = (.ok (makeRPCRequest acc.groups n p) :
          Except (DispatchError E) (RpcCallEffect G P)) ∧
    runGetRequest (E := E) (⟨th.handlers, n⟩ : GetRequestEffect G) c1
      = .error (.requestNotFound n) ∧
    runRpcCallEffect (makeRPCRequest acc.groups n p) c2
      = .error (.notAFunction n) := by
  refine ⟨rfl, rfl, ?_, ?_⟩
  · simp [runGetRequest, h1]
  · simp [runRpcCallEffect, makeRPCRequest, h2]

/-- Witness for claim C8's amended theorem at concrete accessors and
clients. -/
theorem getRequest_construction_total_failure_at_run_witness :
    TaggedHandler.getRequest (⟨"t", (7 : Nat)⟩ : TaggedHandler Nat) "X"
      = (.ok ⟨7, "X"⟩ : Except (DispatchError Unit) (GetRequestEffect Nat)) ∧
    TaggedRPCGroup.getRequest (⟨"t", (7 : Nat)⟩ : TaggedRPCGroup Nat) "X" (0 : Nat)
      = (.ok (makeRPCRequest 7 "X" 0) :
          Except (DispatchError Unit) (RpcCallEffect Nat Nat)) ∧
    runGetRequest (E := Unit) (⟨7, "X"⟩ : GetRequestEffect Nat)
        ([("Y", (3 : Nat))] : RpcClientModel Nat)
      = .error (.requestNotFound "X") ∧
    runRpcCallEffect (makeRPCRequest (7 : Nat) "X" (0 : Nat))
        ([("Y", fun p => .ok p)] : RpcClientModel (Nat → Except Unit Nat))
      = .error (.notAFunction "X") :=
  getRequest_construction_total_failure_at_run ⟨"t", 7⟩ ⟨"t", 7⟩ "X" 0
    [("Y", 3)] [("Y", fun p => .ok p)] rfl rfl

/-- Claim C9: when the tag is not yet present in the global request
mapping, the array-based `createRequests` throws the "Request already
exists" fault for every input array with at least two elements, because the
duplicate-tag check is re-evaluated inside the per-request loop after the
first request has been stored; it completes without a fault exactly for
arrays of length zero or one. -/
theorem createRequests_rejects_multielement_arrays {R : Type} (t : String)
    (l : List R) (s : GlobalRequestMap R) (h : hasKey s t = false) :
    (2 ≤ l.length → (createRequests t l s).2 = .error (.requestExists t)) ∧
    (l.length ≤ 1 →
      (createRequests t l s).2 = .ok (lookupKey (createRequests t l s).1 t)) := by
  match l with
  | [] =>
    refine ⟨fun h2 => absurd h2 (by simp), fun _ => ?_⟩
    simp [createRequests, createRequestsLoop]
  | [a] =>
    refine ⟨fun h2 => absurd h2 (by simp), fun _ => ?_⟩
    simp [createRequests, createRequestsLoop, h]
  | a :: b :: rest =>
    refine ⟨fun _ => ?_, fun h2 => absurd h2 (by simp)⟩
    simp [createRequests, createRequestsLoop, h, hasKey_mapSet_self]

/-- Witness for claim C9: a fresh tag with a two-element array faults,
and with a one-element array completes. -/
theorem createRequests_rejects_multielement_arrays_witness :
    2 ≤ ([1, 2] : List Nat).length ∧
    (createRequests "a" ([1, 2] : List Nat) []).2 = .error (.requestExists "a") ∧
    (createRequests "a" ([1] : List Nat) []).2
      = .ok (lookupKey (createRequests "a" ([1] : List Nat) []).1 "a") :=
  ⟨by decide,
   (createRequests_rejects_multielement_arrays "a" [1, 2] [] rfl).1 (by decide),
   (createRequests_rejects_multielement_arrays "a" [1] [] rfl).2 (by decide)⟩

/-- Claim C10: for a tag present in the global request mapping,
`makeRequest` resolves successfully with `unit` (the embedding of
`undefined`) and never consults the request name — the result is
definitionally the same for any two names — while for a tag absent from
the mapping it throws the "No requests found" fault. -/
theorem makeRequest_ignores_request_name {R : Type} (t n : String)
    (s : GlobalRequestMap R) (h : hasKey s t = true) :
    makeRequest (R := R) t n s = .ok () ∧
    (∀ m, makeRequest (R := R) t n s = makeRequest t m s) ∧
    (∀ s2 : GlobalRequestMap R, lookupKey s2 t = none →
      makeRequest (R := R) t n s2 = .error (.noRequests t)) := by
  refine ⟨?_, fun m => rfl, fun s2 h2 => by simp [makeRequest, h2]⟩
  obtain ⟨v, hv⟩ := Option.isSome_iff_exists.mp (by simpa [hasKey] using h)
  simp [makeRequest, hv]

/-- Witness for claim C10 at a concrete mapping. -/
theorem makeRequest_ignores_request_name_witness :
    makeRequest (R := Nat) "a" "SayHelloReq" [("a", [0])] = .ok () ∧
    makeRequest (R := Nat) "a" "SayHelloReq" [("a", [0])]
      = makeRequest "a" "SomeOtherName" [("a", [0])] ∧
    makeRequest (R := Nat) "a" "SayHelloReq" [] = .error (.noRequests "a") :=
  ⟨(makeRequest_ignores_request_name "a" "SayHelloReq" [("a", [0])] rfl).1,
   (makeRequest_ignores_request_name "a" "SayHelloReq" [("a", [0])] rfl).2.1
     "SomeOtherName",
   (makeRequest_ignores_request_name "a" "SayHelloReq" [("a", [0])] rfl).2.2 [] rfl⟩

end EffectRpc
